import Mathlib

/-!
Verification development for the replay-download script (`download_stats.py`).

The script fetches every replay of a Ballchasing group, archives the raw
JSON of each replay, and builds a `summary.csv` with per-match metrics for
one tracked player.  Below, each piece of the script is shallowly embedded
as an executable Lean definition; the theorems at the end of the file settle
the specification claims against these definitions.
-/

/-! ## Data model for match records

A replay detail record, as consumed by `extract_player_stats`
(`download_stats.py`, lines 71-95).  Fields mirror the JSON paths the code
reads: `js["blue"]` / `js["orange"]`, each with a `players` list, each
player with `name` and nested `stats` groups `core`, `boost`, `movement`,
`demo`. -/

structure Core where
  shots : Int
  goals : Int
  saves : Int
  assists : Int
deriving Repr, DecidableEq

structure Boost where
  bpm : Int
deriving Repr, DecidableEq

structure Movement where
  avg_speed : Int
deriving Repr, DecidableEq

structure Demo where
  inflicted : Int
deriving Repr, DecidableEq

structure Stats where
  core : Core
  boost : Boost
  movement : Movement
  demo : Demo
deriving Repr, DecidableEq

structure Player where
  name : String
  stats : Stats
deriving Repr, DecidableEq

structure Team where
  players : List Player
deriving Repr, DecidableEq

structure Replay where
  id : String
  created : String
  blue : Team
  orange : Team
deriving Repr, DecidableEq

/-- The flat summary row built by `extract_player_stats` (lines 84-95). -/
structure Row where
  id : String
  date : String
  outcome : String
  shots : Int
  goals : Int
  saves : Int
  assists : Int
  demos : Int
  boost_bpm : Int
  avg_speed : Int
deriving Repr, DecidableEq

/-- `team_goals` (lines 74-75): sum of `stats.core.goals` over the team's
players. -/
def team_goals (t : Team) : Int :=
  (t.players.map (fun p => p.stats.core.goals)).sum

/-- Line 77-78: `me_on_blue = any(p["name"] == PLAYER for p in blue["players"])`;
`your_team` is blue when that scan succeeds, orange otherwise.  Only the blue
list is scanned. -/
def yourTeam (PLAYER : String) (js : Replay) : Team :=
  if js.blue.players.any (fun p => p.name = PLAYER) then js.blue else js.orange

/-- Line 78: the team on the other side of the two-way branch. -/
def otherTeam (PLAYER : String) (js : Replay) : Team :=
  if js.blue.players.any (fun p => p.name = PLAYER) then js.orange else js.blue

/-- The row projected from player record `you` (lines 79 and 84-95): the
outcome compares the two teams' goal totals, and the per-player fields are
copied from `you`'s nested stat groups. -/
def projRow (js : Replay) (your other : Team) (you : Player) : Row :=
  { id := js.id
    date := js.created
    outcome := if team_goals your > team_goals other then "win" else "loss"
    shots := you.stats.core.shots
    goals := you.stats.core.goals
    saves := you.stats.core.saves
    assists := you.stats.core.assists
    demos := you.stats.demo.inflicted
    boost_bpm := you.stats.boost.bpm
    avg_speed := you.stats.movement.avg_speed }

/-- `extract_player_stats` (lines 71-95).  The Python
`next(p for p in your_team["players"] if p["name"] == PLAYER)` raises
`StopIteration` when no player matches; that failure is modelled by `none`.
`PLAYER` is the module-global tracked name, passed explicitly here. -/
def extract_player_stats (PLAYER : String) (js : Replay) : Option Row :=
  match (yourTeam PLAYER js).players.find? (fun p => p.name = PLAYER) with
  | none => none
  | some you => some (projRow js (yourTeam PLAYER js) (otherTeam PLAYER js) you)

/-! ## Retrying client

`get_with_retry` (lines 33-41): `for attempt in range(1, MAX_RETRY + 1)`,
each iteration performs one GET.  A returned response — whatever its HTTP
status — is returned immediately; a `ReadTimeout`/`ConnectionError` on the
last attempt is re-raised, otherwise the loop sleeps `2 * attempt` seconds
and tries again.  The environment is modelled as a function from the
attempt number (1-based) to that attempt's outcome. -/

def MAX_RETRY : Nat := 4

/-- What one GET attempt does: raise a transient error
(`ReadTimeout`/`ConnectionError`) or deliver a response with some HTTP
status. -/
inductive AttemptOutcome where
  | transient
  | response (status : Nat)
deriving Repr, DecidableEq

/-- How a `get_with_retry` call ends: a response handed to the caller, the
transient error re-raised, or the (unreachable) fall-through of the `for`
loop, which in Python would return `None`. -/
inductive RetryResult where
  | ok (status : Nat)
  | raised
  | fellThrough
deriving Repr, DecidableEq

/-- Observable trace of one `get_with_retry` call: its result, how many GET
attempts were made, and the back-off sleeps performed, in order. -/
structure RetryTrace where
  result : RetryResult
  attempts : Nat
  sleeps : List Nat
deriving Repr, DecidableEq

/-- The `for` body of lines 34-41, iterating over the remaining attempt
numbers, accumulating the attempt count and the sleeps. -/
def get_with_retry_aux (o : Nat → AttemptOutcome) :
    List Nat → Nat → List Nat → RetryTrace
  | [], made, sleeps => ⟨RetryResult.fellThrough, made, sleeps⟩
  | a :: rest, made, sleeps =>
    match o a with
    | AttemptOutcome.response s => ⟨RetryResult.ok s, made + 1, sleeps⟩
    | AttemptOutcome.transient =>
      if a = MAX_RETRY then ⟨RetryResult.raised, made + 1, sleeps⟩
      else get_with_retry_aux o rest (made + 1) (sleeps ++ [2 * a])

/-- `get_with_retry` (lines 33-41): attempts numbered 1 to `MAX_RETRY`. -/
def get_with_retry (o : Nat → AttemptOutcome) : RetryTrace :=
  get_with_retry_aux o (List.range' 1 MAX_RETRY) 0 []

/-! ## Match enumerator

`list_replays` (lines 44-61): follow the listing endpoint page by page,
extending `ids` with each page's stub identifiers, and `break` as soon as
`data.get("next")` is falsy (absent or the empty string).  The endpoint is
modelled as the sequence of pages it delivers. -/

/-- One page of the listing response: `data["list"]` projected to the stub
identifiers, and `data.get("next")`. -/
structure Page where
  list : List String
  next : Option String
deriving Repr, DecidableEq

/-- Python truthiness of `next_url` at line 57: `None` and `""` are falsy. -/
def nextTruthy (p : Page) : Bool :=
  match p.next with
  | none => false
  | some s => !s.isEmpty

/-- The `while True` loop of lines 49-59 over the delivered page sequence:
accumulate each page's identifiers in order and stop at the first page whose
next link is falsy. -/
def list_replays : List Page → List String
  | [] => []
  | p :: ps => p.list ++ (if nextTruthy p then list_replays ps else [])

/-- A well-formed page delivery: at least one page, every page before the
last carries a truthy next link, and the last page lacks one. -/
inductive WellPaged : List Page → Prop where
  | last (p : Page) : nextTruthy p = false → WellPaged [p]
  | cons (p : Page) (ps : List Page) :
      nextTruthy p = true → WellPaged ps → WellPaged (p :: ps)

/-! ## Startup configuration

Lines 20-25: `TOKEN`, `GROUP`, `PLAYER` come from `os.getenv` (which yields
`None` when the variable is absent), and
`if not all([TOKEN, GROUP, PLAYER]): raise RuntimeError(...)` runs at module
import, before any network call.  Python truthiness makes `None` and the
empty string equally falsy. -/

/-- Python truthiness of an optional string. -/
def truthyOpt : Option String → Bool
  | none => false
  | some s => !s.isEmpty

/-- `all([TOKEN, GROUP, PLAYER])` at line 24. -/
def config_check (token group player : Option String) : Bool :=
  truthyOpt token && truthyOpt group && truthyOpt player

/-- How module initialization ends: `configError` models the `RuntimeError`
of line 25, raised before any request is made; `started` means execution
proceeds to the network-using code. -/
inductive StartupOutcome where
  | configError
  | started
deriving Repr, DecidableEq

/-- Lines 24-25 as a function of the three environment settings. -/
def startup (token group player : Option String) : StartupOutcome :=
  if config_check token group player then StartupOutcome.started
  else StartupOutcome.configError

/-! ## Main loop and summary output

`main` (lines 98-112): for each enumerated id, fetch the detail, archive
it, and append the extracted row; extraction failure aborts the run (no
per-match recovery).  At the end, `summary.csv` is written — overwritten
wholesale by `pandas.DataFrame(rows).to_csv` — but only under `if rows:`,
i.e. only when at least one row exists. -/

/-- The row-building loop of lines 102-106, given the detail record each id
fetches to.  `none` models the run aborting on an extraction failure. -/
def build_rows (PLAYER : String) (detail : String → Replay) :
    List String → Option (List Row)
  | [] => some []
  | rid :: rest =>
    match extract_player_stats PLAYER (detail rid) with
    | none => none
    | some row =>
      match build_rows PLAYER detail rest with
      | none => none
      | some rows => some (row :: rows)

/-- Lines 108-112: the content `summary.csv` is rewritten with (header plus
the rows, in order), or `none` when the `if rows:` guard skips the write and
the file is left untouched. -/
def summary_written (rows : List Row) : Option (List Row) :=
  if rows.isEmpty then none else some rows

/-! ## Raw JSON layer: what the archive file actually contains

`fetch_replay` (lines 64-68) returns `r.json()` — the response body parsed
into a JSON value — and `main` line 105 writes `json.dumps(js)` into
`stats/<id>.json`.  To compare the written bytes with the bytes received, we
model JSON values, Python's default `json.dumps` rendering (item separator
`", "`, key separator `": "`, and `ensure_ascii=True` string escaping), and
the parse performed by `r.json()` (a fueled recursive-descent parser).  The
parser is strict wherever Python's `json` is — it refuses raw control
characters in strings, leading-zero numerals, and (conservatively) bodies
with duplicate object keys — and it is deliberately partial: escape
sequences, float literals and a few other shapes it rejects outright, so on
every body it accepts it agrees with `json.loads`. -/

inductive Json where
  | jnull
  | jbool (b : Bool)
  | jnum (n : Int)
  | jstr (s : String)
  | jarr (xs : List Json)
  | jobj (members : List (String × Json))

/-- The opening-brace character. -/
def lbrace : Char := Char.ofNat 123

/-- The closing-brace character. -/
def rbrace : Char := Char.ofNat 125

/-- Lowercase hexadecimal digit, as `%x` formatting produces. -/
def hexDigit (n : Nat) : Char :=
  if n < 10 then Char.ofNat (48 + n) else Char.ofNat (87 + n)

/-- Four lowercase hexadecimal digits, as in a `\uXXXX` escape. -/
def hex4 (n : Nat) : List Char :=
  [hexDigit (n / 4096 % 16), hexDigit (n / 256 % 16),
   hexDigit (n / 16 % 16), hexDigit (n % 16)]

/-- How CPython's `json.dumps` (default `ensure_ascii=True`) renders one
character inside a string literal: `\"` and `\\` for quote and backslash,
the short escapes for backspace, tab, newline, form feed and carriage
return, printable ASCII (0x20-0x7E) verbatim, and every other character as
`\uXXXX` — with a surrogate pair for code points beyond the basic
multilingual plane. -/
def escapeChar (c : Char) : List Char :=
  if c = '\"' then ['\\', '\"']
  else if c = '\\' then ['\\', '\\']
  else if c = Char.ofNat 8 then ['\\', 'b']
  else if c = Char.ofNat 9 then ['\\', 't']
  else if c = Char.ofNat 10 then ['\\', 'n']
  else if c = Char.ofNat 12 then ['\\', 'f']
  else if c = Char.ofNat 13 then ['\\', 'r']
  else if 32 ≤ c.toNat ∧ c.toNat ≤ 126 then [c]
  else if c.toNat ≤ 65535 then '\\' :: 'u' :: hex4 c.toNat
  else
    '\\' :: 'u' :: hex4 (55296 + (c.toNat - 65536) / 1024) ++
      '\\' :: 'u' :: hex4 (56320 + (c.toNat - 65536) % 1024)

/-- Applies `escapeChar` across a string body. -/
def encodeStr : List Char → List Char
  | [] => []
  | c :: cs => escapeChar c ++ encodeStr cs

/-- A whole string literal as `json.dumps` writes it. -/
def pyStr (s : String) : String :=
  "\"" ++ String.mk (encodeStr s.data) ++ "\""

mutual

/-- Python `json.dumps` with its default separators `", "` and `": "` and
default `ensure_ascii=True` string escaping. -/
def pyDumps : Json → String
  | Json.jnull => "null"
  | Json.jbool true => "true"
  | Json.jbool false => "false"
  | Json.jnum n => toString n
  | Json.jstr s => pyStr s
  | Json.jarr xs => "[" ++ String.intercalate ", " (pyDumpsList xs) ++ "]"
  | Json.jobj ms =>
    "\x7b" ++ String.intercalate ", " (pyDumpsMembers ms) ++ "\x7d"

/-- Renders each array element. -/
def pyDumpsList : List Json → List String
  | [] => []
  | j :: js => pyDumps j :: pyDumpsList js

/-- Renders each `"key": value` member. -/
def pyDumpsMembers : List (String × Json) → List String
  | [] => []
  | (k, v) :: ms => (pyStr k ++ ": " ++ pyDumps v) :: pyDumpsMembers ms

end

/-- Skips JSON whitespace. -/
def skipWs : List Char → List Char
  | [] => []
  | c :: cs =>
    if c = ' ' || c = '\n' || c = '\t' || c = '\r' then skipWs cs else c :: cs

/-- Reads the body of a string literal up to the closing quote.  As in
Python's strict `json` parser, a raw control character (below 0x20) is
refused; escape sequences are outside the modelled sublanguage, so a
backslash makes the parse fail rather than succeed with a different value
than `json.loads`. -/
def parseStrBody : List Char → Option (List Char × List Char)
  | [] => none
  | c :: cs =>
    if c = '\"' then some ([], cs)
    else if c = '\\' then none
    else if c.toNat < 32 then none
    else
      match parseStrBody cs with
      | some (body, rest) => some (c :: body, rest)
      | none => none

/-- Reads a digit run into a number, returning the rest of the input. -/
def parseDigitsAux : List Char → Nat → Nat × List Char
  | [], acc => (acc, [])
  | c :: cs, acc =>
    if c.isDigit then parseDigitsAux cs (acc * 10 + (c.toNat - 48))
    else (acc, c :: cs)

/-- Reads an unsigned integer literal, enforcing the JSON grammar's
leading-zero rule (`0` may not be followed by another digit), which
Python's `json` also enforces. -/
def parseUInt : List Char → Option (Nat × List Char)
  | [] => none
  | c :: cs =>
    if c = '0' then
      match cs with
      | d :: _ => if d.isDigit then none else some (0, cs)
      | [] => some (0, [])
    else if c.isDigit then
      match parseDigitsAux (c :: cs) 0 with
      | (n, rest) => some (n, rest)
    else none

/-- Reads an optionally negated integer literal. -/
def parseNum : List Char → Option (Int × List Char)
  | [] => none
  | c :: cs =>
    if c = '-' then
      match parseUInt cs with
      | some (n, rest) => some (-(n : Int), rest)
      | none => none
    else
      match parseUInt (c :: cs) with
      | some (n, rest) => some ((n : Int), rest)
      | none => none

/-- Consumes an expected literal character sequence. -/
def stripToken : List Char → List Char → Option (List Char)
  | [], input => some input
  | _ :: _, [] => none
  | e :: es, c :: cs => if c = e then stripToken es cs else none

/-- Whether every object key is distinct.  Python's `json.loads` accepts a
duplicate key and lets the later value win; the modelled parser refuses such
a body instead, so it never claims a parse Python would not produce. -/
def keysDistinct : List (String × Json) → Bool
  | [] => true
  | (k, _) :: ms =>
    if ms.any (fun m => m.fst = k) then false else keysDistinct ms

mutual

/-- Parses one JSON value, returning it with the unconsumed input. -/
def parseValue : Nat → List Char → Option (Json × List Char)
  | 0, _ => none
  | fuel + 1, input =>
    match skipWs input with
    | [] => none
    | c :: cs =>
      if c = lbrace then parseObj fuel cs
      else if c = '[' then parseArr fuel cs
      else if c = '\"' then
        match parseStrBody cs with
        | some (body, rest) => some (Json.jstr (String.mk body), rest)
        | none => none
      else if c = 'n' then
        match stripToken ['u', 'l', 'l'] cs with
        | some rest => some (Json.jnull, rest)
        | none => none
      else if c = 't' then
        match stripToken ['r', 'u', 'e'] cs with
        | some rest => some (Json.jbool true, rest)
        | none => none
      else if c = 'f' then
        match stripToken ['a', 'l', 's', 'e'] cs with
        | some rest => some (Json.jbool false, rest)
        | none => none
      else
        match parseNum (c :: cs) with
        | some (n, rest) => some (Json.jnum n, rest)
        | none => none

/-- Parses the inside of an object, the opening brace already consumed. -/
def parseObj : Nat → List Char → Option (Json × List Char)
  | 0, _ => none
  | fuel + 1, input =>
    match skipWs input with
    | [] => none
    | c :: cs =>
      if c = rbrace then some (Json.jobj [], cs)
      else
        match parseMembers fuel (c :: cs) with
        | some (ms, rest) =>
          if keysDistinct ms then some (Json.jobj ms, rest) else none
        | none => none

/-- Parses one or more `"key": value` members followed by the closing
brace. -/
def parseMembers : Nat → List Char → Option (List (String × Json) × List Char)
  | 0, _ => none
  | fuel + 1, input =>
    match skipWs input with
    | [] => none
    | c :: cs =>
      if c = '\"' then
        match parseStrBody cs with
        | some (key, r1) =>
          (match skipWs r1 with
           | c2 :: r2 =>
             if c2 = ':' then
               match parseValue fuel r2 with
               | some (v, r3) =>
                 (match skipWs r3 with
                  | c3 :: r4 =>
                    if c3 = ',' then
                      match parseMembers fuel r4 with
                      | some (ms, r5) =>
                        some ((String.mk key, v) :: ms, r5)
                      | none => none
                    else if c3 = rbrace then
                      some ([(String.mk key, v)], r4)
                    else none
                  | [] => none)
               | none => none
             else none
           | [] => none)
        | none => none
      else none

/-- Parses the inside of an array, the opening bracket already consumed. -/
def parseArr : Nat → List Char → Option (Json × List Char)
  | 0, _ => none
  | fuel + 1, input =>
    match skipWs input with
    | [] => none
    | c :: cs =>
      if c = ']' then some (Json.jarr [], cs)
      else
        match parseElements fuel (c :: cs) with
        | some (xs, rest) => some (Json.jarr xs, rest)
        | none => none

/-- Parses one or more array elements followed by the closing bracket. -/
def parseElements : Nat → List Char → Option (List Json × List Char)
  | 0, _ => none
  | fuel + 1, input =>
    match parseValue fuel input with
    | some (v, r1) =>
      (match skipWs r1 with
       | c :: r2 =>
         if c = ',' then
           match parseElements fuel r2 with
           | some (xs, r3) => some (v :: xs, r3)
           | none => none
         else if c = ']' then some ([v], r2)
         else none
       | [] => none)
    | none => none

end

/-- `r.json()`: parse the full response body as one JSON value. -/
def parseJson (s : String) : Option Json :=
  match parseValue (s.length + 1) s.data with
  | some (j, rest) =>
    match skipWs rest with
    | [] => some j
    | _ :: _ => none
  | none => none

/-- `fetch_replay` (lines 64-68) as seen from the response body: the value
handed to `main` is the parse of the body, not the body itself. -/
def fetch_replay (body : String) : Option Json := parseJson body

/-- Line 105: `(OUT_DIR / f"<id>.json").write_text(json.dumps(js))` — the
archive file's name and content for a fetched value `js`. -/
def archive_file (rid : String) (js : Json) : String × String :=
  (rid ++ ".json", pyDumps js)

/-- The archive write produced by fetching and archiving one match, as a
function of the identifier and the raw response body. -/
def archive_of_body (rid : String) (body : String) : Option (String × String) :=
  (fetch_replay body).map (archive_file rid)

/-! ## Concrete sample data for witnesses -/

/-- A tracked player named `"me"`. -/
def pA : Player := ⟨"me", ⟨⟨3, 2, 1, 0⟩, ⟨400⟩, ⟨1450⟩, ⟨5⟩⟩⟩

/-- A second record carrying the same name `"me"` but different stats. -/
def pA2 : Player := ⟨"me", ⟨⟨9, 9, 9, 9⟩, ⟨9⟩, ⟨9⟩, ⟨9⟩⟩⟩

/-- An opponent named `"rival"`. -/
def pB : Player := ⟨"rival", ⟨⟨1, 1, 2, 1⟩, ⟨350⟩, ⟨1300⟩, ⟨2⟩⟩⟩

/-- A match where `"me"` appears only on orange; orange outscores blue 2-1. -/
def jsOnlyOrange : Replay := ⟨"m1", "2024-01-01", ⟨[pB]⟩, ⟨[pA]⟩⟩

/-- The row `extract_player_stats "me" jsOnlyOrange` produces. -/
def rowOnlyOrange : Row := ⟨"m1", "2024-01-01", "win", 3, 2, 1, 0, 5, 400, 1450⟩

/-- A match where `"me"` appears on neither team. -/
def jsNobody : Replay := ⟨"m2", "2024-01-02", ⟨[pB]⟩, ⟨[pB]⟩⟩

/-- The tracked player with a single goal. -/
def pMe1 : Player := ⟨"me", ⟨⟨2, 1, 0, 1⟩, ⟨300⟩, ⟨1400⟩, ⟨1⟩⟩⟩

/-- An opponent with three goals. -/
def pFoe3 : Player := ⟨"rival", ⟨⟨5, 3, 1, 2⟩, ⟨380⟩, ⟨1500⟩, ⟨0⟩⟩⟩

/-- A match where `"me"` is on blue and blue loses 1-3 to orange. -/
def jsLoss : Replay := ⟨"m5", "2024-01-05", ⟨[pMe1]⟩, ⟨[pFoe3]⟩⟩

/-- The row `extract_player_stats "me" jsLoss` produces. -/
def rowLoss : Row := ⟨"m5", "2024-01-05", "loss", 2, 1, 0, 1, 1, 300, 1400⟩

/-- A match where `"me"` appears on both teams, with different stats. -/
def jsBoth : Replay := ⟨"m3", "2024-01-03", ⟨[pA]⟩, ⟨[pA2]⟩⟩

/-- A match where two blue players are both named `"me"`. -/
def jsDup : Replay := ⟨"m4", "2024-01-04", ⟨[pB, pA, pA2]⟩, ⟨[pB]⟩⟩

/-- A two-page delivery: the first page links onward, the second lacks a
next link. -/
def pagesW : List Page := [⟨["a", "b"], some "u"⟩, ⟨["c"], none⟩]

/-- Pages beyond the one lacking a next link; they must never be fetched. -/
def extraW : List Page := [⟨["z"], some "v"⟩]

/-! ## Helper lemmas -/

/-- `extract_player_stats` as `Option.map` over the lookup in your team. -/
theorem extract_eq (PLAYER : String) (js : Replay) :
    extract_player_stats PLAYER js =
      ((yourTeam PLAYER js).players.find? (fun p => p.name = PLAYER)).map
        (projRow js (yourTeam PLAYER js) (otherTeam PLAYER js)) := by
  cases e : (yourTeam PLAYER js).players.find? (fun p => p.name = PLAYER) with
  | none => simp [extract_player_stats, e]
  | some you => simp [extract_player_stats, e]

/-- `List.find?` returns the first match of a split `pre ++ you :: post`
when nothing in `pre` matches. -/
theorem find_append_first {α : Type} (f : α → Bool) (pre : List α) (you : α)
    (post : List α) (hpre : ∀ p ∈ pre, f p = false) (hyou : f you = true) :
    (pre ++ you :: post).find? f = some you := by
  induction pre with
  | nil => simp [List.find?, hyou]
  | cons a as ih =>
    have ha := hpre a (List.mem_cons_self a as)
    simp only [List.cons_append, List.find?, ha]
    exact ih (fun p hp => hpre p (List.mem_cons_of_mem a hp))

/-- The outcome field of any extracted row is the goal-total comparison of
the two-way branch's teams. -/
theorem extract_outcome (PLAYER : String) (js : Replay) (r : Row)
    (h : extract_player_stats PLAYER js = some r) :
    r.outcome =
      if team_goals (yourTeam PLAYER js) > team_goals (otherTeam PLAYER js)
      then "win" else "loss" := by
  rw [extract_eq] at h
  cases e : (yourTeam PLAYER js).players.find? (fun p => p.name = PLAYER) with
  | none => rw [e] at h; cases h
  | some you =>
    rw [e] at h
    simp only [Option.map_some', Option.some.injEq] at h
    subst h
    rfl

/-! ## Claims -/

/-- Claim C1: `extract_player_stats` determines the tracked player's team by
scanning only the blue players for an exact name match: if the scan
succeeds, blue is your team and orange the other; otherwise orange is your
team and blue the other.  In particular, when the tracked name appears only
on orange, the projected per-player stats come from that player's record on
orange. -/
theorem claim_C1_team_attribution (PLAYER : String) (js : Replay) :
    (js.blue.players.any (fun p => p.name = PLAYER) = true →
      extract_player_stats PLAYER js =
        (js.blue.players.find? (fun p => p.name = PLAYER)).map
          (projRow js js.blue js.orange)) ∧
    (js.blue.players.any (fun p => p.name = PLAYER) = false →
      extract_player_stats PLAYER js =
        (js.orange.players.find? (fun p => p.name = PLAYER)).map
          (projRow js js.orange js.blue)) ∧
    (∀ you, js.blue.players.any (fun p => p.name = PLAYER) = false →
      js.orange.players.find? (fun p => p.name = PLAYER) = some you →
      extract_player_stats PLAYER js = some
        { id := js.id
          date := js.created
          outcome :=
            if team_goals js.orange > team_goals js.blue then "win" else "loss"
          shots := you.stats.core.shots
          goals := you.stats.core.goals
          saves := you.stats.core.saves
          assists := you.stats.core.assists
          demos := you.stats.demo.inflicted
          boost_bpm := you.stats.boost.bpm
          avg_speed := you.stats.movement.avg_speed }) := by
  refine ⟨?_, ?_, ?_⟩
  · intro hb
    have hy : yourTeam PLAYER js = js.blue := by simp [yourTeam, hb]
    have ho : otherTeam PLAYER js = js.orange := by simp [otherTeam, hb]
    rw [extract_eq, hy, ho]
  · intro hb
    have hy : yourTeam PLAYER js = js.orange := by simp [yourTeam, hb]
    have ho : otherTeam PLAYER js = js.blue := by simp [otherTeam, hb]
    rw [extract_eq, hy, ho]
  · intro you hb hfind
    have hy : yourTeam PLAYER js = js.orange := by simp [yourTeam, hb]
    have ho : otherTeam PLAYER js = js.blue := by simp [otherTeam, hb]
    rw [extract_eq, hy, ho, hfind]
    rfl

/-- Claim C1 witness: in `jsOnlyOrange` the tracked name `"me"` appears only
on orange, and the extracted stats are those of the orange record `pA`. -/
theorem claim_C1_witness :
    extract_player_stats "me" jsOnlyOrange = some
      { id := jsOnlyOrange.id
        date := jsOnlyOrange.created
        outcome :=
          if team_goals jsOnlyOrange.orange > team_goals jsOnlyOrange.blue
          then "win" else "loss"
        shots := pA.stats.core.shots
        goals := pA.stats.core.goals
        saves := pA.stats.core.saves
        assists := pA.stats.core.assists
        demos := pA.stats.demo.inflicted
        boost_bpm := pA.stats.boost.bpm
        avg_speed := pA.stats.movement.avg_speed } :=
  (claim_C1_team_attribution "me" jsOnlyOrange).2.2 pA (by decide) (by decide)

/-- Claim C2: every team's goal total is the sum of `core.goals` over its
players, and an extracted row's outcome is fully determined: `"win"` when
your team's total strictly exceeds the other team's and `"loss"` in every
other case — so outcome is `"win"` exactly on strict excess, any
non-greater total (a strictly smaller one included) yields `"loss"`, and in
particular equal totals yield `"loss"`. -/
theorem claim_C2_outcome (PLAYER : String) (js : Replay) (r : Row)
    (h : extract_player_stats PLAYER js = some r) :
    (∀ t : Team,
      team_goals t = (t.players.map (fun p => p.stats.core.goals)).sum) ∧
    (r.outcome =
      if team_goals (yourTeam PLAYER js) > team_goals (otherTeam PLAYER js)
      then "win" else "loss") ∧
    (r.outcome = "win" ↔
      team_goals (yourTeam PLAYER js) > team_goals (otherTeam PLAYER js)) ∧
    (¬ team_goals (yourTeam PLAYER js) > team_goals (otherTeam PLAYER js) →
      r.outcome = "loss") ∧
    (team_goals (yourTeam PLAYER js) = team_goals (otherTeam PLAYER js) →
      r.outcome = "loss") := by
  have hout := extract_outcome PLAYER js r h
  refine ⟨fun t => rfl, hout, ?_, ?_, ?_⟩
  · rw [hout]
    by_cases hgt :
        team_goals (yourTeam PLAYER js) > team_goals (otherTeam PLAYER js)
    · simp [hgt]
    · simp [hgt]
  · intro hng
    rw [hout]
    simp [hng]
  · intro heq
    rw [hout, heq]
    simp

/-- Claim C2 witness: `jsLoss` (your team blue scores 1, orange scores 3)
extracts to `rowLoss`, and the theorem's outcome characterization holds
there; its non-greater clause gives the reversed-scores `"loss"`. -/
theorem claim_C2_witness :
    (∀ t : Team,
      team_goals t = (t.players.map (fun p => p.stats.core.goals)).sum) ∧
    (rowLoss.outcome =
      if team_goals (yourTeam "me" jsLoss) > team_goals (otherTeam "me" jsLoss)
      then "win" else "loss") ∧
    (rowLoss.outcome = "win" ↔
      team_goals (yourTeam "me" jsLoss) >
        team_goals (otherTeam "me" jsLoss)) ∧
    (¬ team_goals (yourTeam "me" jsLoss) >
        team_goals (otherTeam "me" jsLoss) →
      rowLoss.outcome = "loss") ∧
    (team_goals (yourTeam "me" jsLoss) =
        team_goals (otherTeam "me" jsLoss) →
      rowLoss.outcome = "loss") :=
  claim_C2_outcome "me" jsLoss rowLoss (by decide)

/-- Claim C3: when the tracked name appears in neither team's player list,
extraction fails (the Python `next(...)` raises `StopIteration`, modelled by
`none`); no default row is returned. -/
theorem claim_C3_missing_player (PLAYER : String) (js : Replay)
    (hb : ∀ p ∈ js.blue.players, p.name ≠ PLAYER)
    (ho : ∀ p ∈ js.orange.players, p.name ≠ PLAYER) :
    extract_player_stats PLAYER js = none := by
  have hanyb : js.blue.players.any (fun p => p.name = PLAYER) = false := by
    rw [Bool.eq_false_iff]
    intro hcontra
    rw [List.any_eq_true] at hcontra
    obtain ⟨x, hx, hpx⟩ := hcontra
    exact hb x hx (by simpa using hpx)
  have hy : yourTeam PLAYER js = js.orange := by simp [yourTeam, hanyb]
  have hfind : js.orange.players.find? (fun p => p.name = PLAYER) = none := by
    rw [List.find?_eq_none]
    intro x hx
    simpa using ho x hx
  rw [extract_eq, hy, hfind]
  rfl

/-- Claim C3 witness: `"me"` appears on neither team of `jsNobody` and
extraction yields no row. -/
theorem claim_C3_witness : extract_player_stats "me" jsNobody = none :=
  claim_C3_missing_player "me" jsNobody (by decide) (by decide)

/-- Claim C4: with transient failures on the first `K` attempts: if
`K < MAX_RETRY` and attempt `K + 1` delivers a response (of any HTTP status,
so error statuses are never retried), the call returns that response after
exactly `K + 1` attempts, sleeping `2 * a` seconds after each failed attempt
`a` (linear back-off); if every allowed attempt fails, exactly `MAX_RETRY`
attempts are made and the failure is re-raised. -/
theorem claim_C4_retry (o : Nat → AttemptOutcome) (K : Nat)
    (h1 : ∀ i, 1 ≤ i → i ≤ K → o i = AttemptOutcome.transient) :
    (∀ s, K < MAX_RETRY → o (K + 1) = AttemptOutcome.response s →
      get_with_retry o =
        ⟨RetryResult.ok s, K + 1, (List.range' 1 K).map (fun a => 2 * a)⟩) ∧
    (MAX_RETRY ≤ K →
      get_with_retry o =
        ⟨RetryResult.raised, MAX_RETRY,
          (List.range' 1 (MAX_RETRY - 1)).map (fun a => 2 * a)⟩) := by
  have hr : List.range' 1 MAX_RETRY = [1, 2, 3, 4] := rfl
  constructor
  · intro s hK hs
    rw [show MAX_RETRY = 4 from rfl] at hK
    interval_cases K
    · norm_num at hs
      simp [get_with_retry, hr, get_with_retry_aux, hs, MAX_RETRY]
    · have e1 : o 1 = AttemptOutcome.transient := h1 1 (by omega) (by omega)
      norm_num at hs
      simp [get_with_retry, hr, get_with_retry_aux, e1, hs, MAX_RETRY,
        List.range']
    · have e1 : o 1 = AttemptOutcome.transient := h1 1 (by omega) (by omega)
      have e2 : o 2 = AttemptOutcome.transient := h1 2 (by omega) (by omega)
      norm_num at hs
      simp [get_with_retry, hr, get_with_retry_aux, e1, e2, hs, MAX_RETRY,
        List.range']
    · have e1 : o 1 = AttemptOutcome.transient := h1 1 (by omega) (by omega)
      have e2 : o 2 = AttemptOutcome.transient := h1 2 (by omega) (by omega)
      have e3 : o 3 = AttemptOutcome.transient := h1 3 (by omega) (by omega)
      norm_num at hs
      simp [get_with_retry, hr, get_with_retry_aux, e1, e2, e3, hs, MAX_RETRY,
        List.range']
  · intro hK
    rw [show MAX_RETRY = 4 from rfl] at hK
    have e1 : o 1 = AttemptOutcome.transient := h1 1 (by omega) (by omega)
    have e2 : o 2 = AttemptOutcome.transient := h1 2 (by omega) (by omega)
    have e3 : o 3 = AttemptOutcome.transient := h1 3 (by omega) (by omega)
    have e4 : o 4 = AttemptOutcome.transient := h1 4 (by omega) (by omega)
    simp [get_with_retry, hr, get_with_retry_aux, e1, e2, e3, e4, MAX_RETRY,
      List.range']

/-- Claim C4 witness: two transient failures then a 200 response succeed on
the third attempt with back-off sleeps of 2 and 4 seconds. -/
theorem claim_C4_witness :
    get_with_retry
        (fun i => if i ≤ 2 then AttemptOutcome.transient
                  else AttemptOutcome.response 200) =
      ⟨RetryResult.ok 200, 3, [2, 4]⟩ := by
  have h :=
    (claim_C4_retry
        (fun i => if i ≤ 2 then AttemptOutcome.transient
                  else AttemptOutcome.response 200) 2
        (fun i _ h2 => by simp [h2])).1 200 (by decide) (by decide)
  exact h.trans (by decide)

/-- Helper for Claim C5: over a well-formed page delivery, the enumeration
collects exactly the delivered stub lists in order and never touches pages
past the one lacking a next link. -/
theorem list_replays_wellPaged (pages extra : List Page)
    (h : WellPaged pages) :
    list_replays (pages ++ extra) = (pages.map Page.list).flatten := by
  induction h with
  | last p hp => simp [list_replays, hp]
  | cons p ps hp _ ih => simp [list_replays, hp, ih]

/-- Claim C5: when the listing endpoint delivers its stubs across one or
more pages, each page before the last carrying a next link and the last
lacking one, `list_replays` returns exactly the delivered identifiers, in
stub order across pages with no deduplication, and never consumes a page
beyond the one lacking a next link; in particular the count equals the total
number of delivered stubs. -/
theorem claim_C5_pagination (pages extra : List Page) (h : WellPaged pages) :
    list_replays (pages ++ extra) = (pages.map Page.list).flatten ∧
    (list_replays (pages ++ extra)).length =
      (pages.map (fun p => p.list.length)).sum := by
  refine ⟨list_replays_wellPaged pages extra h, ?_⟩
  rw [list_replays_wellPaged pages extra h, List.length_flatten, List.map_map]
  rfl

/-- Claim C5 witness: two delivered pages holding `["a", "b"]` and `["c"]`
enumerate to `["a", "b", "c"]` even when a further page sits beyond the one
lacking a next link. -/
theorem claim_C5_witness :
    list_replays (pagesW ++ extraW) = ["a", "b", "c"] ∧
    (list_replays (pagesW ++ extraW)).length = 3 := by
  have h := claim_C5_pagination pagesW extraW
    (WellPaged.cons _ _ (by decide) (WellPaged.last _ (by decide)))
  exact ⟨h.1.trans (by decide), h.2.trans (by decide)⟩

/-- Claim C6 counterexample: the remote delivers the body
`\x7b"id":"a"\x7d` (no space after the colon); the archive step stores
`\x7b"id": "a"\x7d` — the `json.dumps` rendering of the parsed value — which
is not the byte sequence that was received.  So the stored content is not
verbatim. -/
theorem claim_C6_counterexample :
    archive_of_body "r1" "\x7b\"id\":\"a\"\x7d" =
      some ("r1.json", "\x7b\"id\": \"a\"\x7d") ∧
    ("\x7b\"id\": \"a\"\x7d" : String) ≠ "\x7b\"id\":\"a\"\x7d" := by
  constructor
  · rfl
  · decide

/-- Claim C6 (amended): for every processed match, the archive directory
receives one file named `<id>.json` whose content is the `json.dumps`
re-serialization of the parsed JSON detail — semantically the same record,
but not necessarily the verbatim bytes received. -/
theorem claim_C6_archive (rid body : String) (j : Json)
    (h : parseJson body = some j) :
    archive_of_body rid body = some (rid ++ ".json", pyDumps j) := by
  simp [archive_of_body, fetch_replay, archive_file, h]

/-- Claim C6 witness: the compact body parses to the object
`\x7b"id": "a"\x7d`, and its archive write is the file `r1.json` holding
that object's `json.dumps` rendering. -/
theorem claim_C6_witness :
    archive_of_body "r1" "\x7b\"id\":\"a\"\x7d" =
      some ("r1.json", pyDumps (Json.jobj [("id", Json.jstr "a")])) :=
  claim_C6_archive "r1" "\x7b\"id\":\"a\"\x7d"
    (Json.jobj [("id", Json.jstr "a")]) rfl

/-- Claim C7 counterexample: a run that enumerates zero matches finishes
(`build_rows` succeeds with zero rows), yet the `if rows:` guard skips the
summary write entirely, so `summary.csv` is not rebuilt on that run. -/
theorem claim_C7_counterexample :
    build_rows "me" (fun _ => jsOnlyOrange) [] = some [] ∧
    summary_written [] = none := ⟨rfl, rfl⟩

/-- Claim C7 (amended): on every run that finishes, each enumerated match
contributes exactly one successfully extracted row, in fetch order, and the
summary file is overwritten with exactly those rows whenever at least one
row exists; a finished run with zero rows (in particular, zero enumerated
matches) skips the write and leaves the summary file untouched. -/
theorem claim_C7_summary (PLAYER : String) (detail : String → Replay)
    (ids : List String) (rows : List Row)
    (h : build_rows PLAYER detail ids = some rows) :
    ids.map (fun rid => extract_player_stats PLAYER (detail rid)) =
      rows.map some ∧
    (rows ≠ [] → summary_written rows = some rows) ∧
    (rows = [] → summary_written rows = none) := by
  induction ids generalizing rows with
  | nil =>
    simp only [build_rows, Option.some.injEq] at h
    subst h
    exact ⟨rfl, fun hc => absurd rfl hc, fun _ => rfl⟩
  | cons rid rest ih =>
    simp only [build_rows] at h
    cases he : extract_player_stats PLAYER (detail rid) with
    | none => rw [he] at h; cases h
    | some row =>
      rw [he] at h
      cases hb : build_rows PLAYER detail rest with
      | none => rw [hb] at h; cases h
      | some rs =>
        rw [hb] at h
        simp only [Option.some.injEq] at h
        subst h
        refine ⟨?_, fun _ => by simp [summary_written], fun hc => by cases hc⟩
        simp only [List.map_cons, he, (ih rs hb).1]

/-- Claim C7 witness: a one-match run extracts `rowOnlyOrange` and the
summary file is rewritten with exactly that row. -/
theorem claim_C7_witness :
    (["m1"].map
        (fun rid => extract_player_stats "me"
          ((fun _ => jsOnlyOrange) rid))) = [rowOnlyOrange].map some ∧
    ([rowOnlyOrange] ≠ ([] : List Row) →
      summary_written [rowOnlyOrange] = some [rowOnlyOrange]) ∧
    ([rowOnlyOrange] = ([] : List Row) →
      summary_written [rowOnlyOrange] = none) :=
  claim_C7_summary "me" (fun _ => jsOnlyOrange) ["m1"] [rowOnlyOrange]
    (by decide)

/-- Claim C8: when the tracked name appears on both teams, extraction does
not fail: blue wins the two-way branch, and the returned row is projected
from the matching blue record (the orange occurrence is never consulted; the
"exactly one team" invariant is assumed, not checked). -/
theorem claim_C8_both_teams (PLAYER : String) (js : Replay) (you : Player)
    (hb : js.blue.players.find? (fun p => p.name = PLAYER) = some you)
    (_ho : ∃ q ∈ js.orange.players, q.name = PLAYER) :
    extract_player_stats PLAYER js = some (projRow js js.blue js.orange you) := by
  have hmem := List.mem_of_find?_eq_some hb
  have hpred := List.find?_some hb
  have hany : js.blue.players.any (fun p => p.name = PLAYER) = true :=
    List.any_eq_true.mpr ⟨you, hmem, hpred⟩
  have hy : yourTeam PLAYER js = js.blue := by simp [yourTeam, hany]
  have hot : otherTeam PLAYER js = js.orange := by simp [otherTeam, hany]
  rw [extract_eq, hy, hot, hb]
  rfl

/-- Claim C8 witness: `"me"` appears on both teams of `jsBoth`; the row
comes from the blue record `pA`, not the orange record `pA2`. -/
theorem claim_C8_witness :
    extract_player_stats "me" jsBoth =
      some (projRow jsBoth jsBoth.blue jsBoth.orange pA) :=
  claim_C8_both_teams "me" jsBoth pA (by decide) (by decide)

/-- Claim C9: when several players of the chosen team carry the tracked
name, the extracted row is projected from the first such record in that
team's list order. -/
theorem claim_C9_first_match (PLAYER : String) (js : Replay)
    (pre post : List Player) (you : Player)
    (hsplit : (yourTeam PLAYER js).players = pre ++ you :: post)
    (hpre : ∀ p ∈ pre, p.name ≠ PLAYER)
    (hyou : you.name = PLAYER)
    (_hdup : ∃ q ∈ post, q.name = PLAYER) :
    extract_player_stats PLAYER js =
      some (projRow js (yourTeam PLAYER js) (otherTeam PLAYER js) you) := by
  have hfind :
      (yourTeam PLAYER js).players.find? (fun p => p.name = PLAYER) =
        some you := by
    rw [hsplit]
    refine find_append_first _ pre you post (fun p hp => ?_) (by simp [hyou])
    simpa using hpre p hp
  rw [extract_eq, hfind]
  rfl

/-- Claim C9 witness: blue in `jsDup` lists `pB`, then `pA`, then `pA2`
(both latter named `"me"`); the row is projected from the first match
`pA`. -/
theorem claim_C9_witness :
    extract_player_stats "me" jsDup =
      some (projRow jsDup (yourTeam "me" jsDup) (otherTeam "me" jsDup) pA) :=
  claim_C9_first_match "me" jsDup [pB] [pA2] pA
    (by decide) (by decide) (by decide) (by decide)

/-- Claim C10: an environment value that is present but empty is as falsy as
an absent one, and whenever any of the three required settings is unset or
empty, startup ends in the configuration error (the `RuntimeError` of line
25, raised at module import before any request is issued). -/
theorem claim_C10_config (t g p : Option String) :
    (startup (some "") g p = startup none g p ∧
     startup t (some "") p = startup t none p ∧
     startup t g (some "") = startup t g none) ∧
    ((t = none ∨ t = some "" ∨ g = none ∨ g = some "" ∨
        p = none ∨ p = some "") →
      startup t g p = StartupOutcome.configError) := by
  have he : "".isEmpty = true := rfl
  refine ⟨⟨rfl, rfl, rfl⟩, ?_⟩
  rintro (rfl | rfl | rfl | rfl | rfl | rfl) <;>
    simp [startup, config_check, truthyOpt, he]

/-- Claim C10 witness: an empty credential with the other settings present
is a fatal configuration error. -/
theorem claim_C10_witness :
    startup (some "") (some "gid") (some "me") = StartupOutcome.configError :=
  (claim_C10_config (some "") (some "gid") (some "me")).2 (Or.inr (Or.inl rfl))
